import Mathlib

/-!
# Whistant local server registration — verification development

A shallow embedding of the tunnel-lifecycle and registration-state logic of
the Whistant desktop app (main process, renderer and save/load handlers),
together with theorems settling the spec's claims about it.

The embedding follows the JavaScript source:
* tunnel URL extraction from subprocess output and from the cloudflared
  metrics endpoint (the regular expression
  `https://[a-z0-9-]+.trycloudflare.com` is modelled character-by-character);
* the `register-server` handler: cached-URL reuse, the bounded probe loop
  with its localhost fallback, the explicit success-marker check;
* the renderer's `submitLinkCode` persistence of the registration record;
* `updateServerUrlIfRegistered` (URL-drift update);
* the `save-registration` / `load-registration` handlers over a JSON file,
  with a small executable JSON printer and parser standing in for
  `JSON.stringify(· , null, 2)` and `JSON.parse` (string escapes are limited
  to the common ones; `\u` escapes and numeric edge cases never produced by
  the app are out of scope).

External effects (HTTP outcomes, subprocess chunks, metrics bodies, system
information) are inputs; file-system state is explicit (`Option String`
for the registration file, `Option RegRecord` at record level).
-/

set_option maxRecDepth 10000

namespace Whistant

/-- JavaScript truthiness of a possibly-absent string (`undefined`, `null`
and `""` are falsy). -/
def jsTruthy : Option String → Bool
  | none => false
  | some s => !(s == "")

/-- JavaScript `s || dflt` for strings: the default replaces the empty
string. -/
def jsOr (s dflt : String) : String := if s = "" then dflt else s

/-- The `Option String` version of `x || dflt` (used for `data.userId || code`). -/
def jsOrOpt (x : Option String) (dflt : String) : String :=
  match x with
  | none => dflt
  | some s => if s = "" then dflt else s

/-! ## Tunnel URL extraction

The source scans output chunks and metrics lines with
`/(https:\/\/[a-z0-9\-]+\.trycloudflare\.com)/` and takes `match[1]`,
the first (leftmost) match. -/

/-- True when, in `startsWithChars p l`, `p` is an initial segment of `l`. -/
def startsWithChars : List Char → List Char → Bool
  | [], _ => true
  | _ :: _, [] => false
  | p :: ps, c :: cs => p == c && startsWithChars ps cs

/-- Substring occurrence test, scanning every position (JavaScript
`String.prototype.includes`). -/
def hasSubstrChars (needle : List Char) : List Char → Bool
  | [] => startsWithChars needle []
  | c :: cs => startsWithChars needle (c :: cs) || hasSubstrChars needle cs

/-- The character class `[a-z0-9-]` of the tunnel-hostname pattern. -/
def isLabelChar (c : Char) : Bool :=
  ('a' ≤ c && c ≤ 'z') || ('0' ≤ c && c ≤ '9') || c == '-'

/-- The literal scheme-and-slashes part of the pattern. -/
def httpsChars : List Char := ("https://").data

/-- The literal domain suffix of the pattern. -/
def domChars : List Char := (".trycloudflare.com").data

/-- Try to match the tunnel-URL pattern at the head of `cs`: the literal
`https://`, a non-empty greedy run of `[a-z0-9-]`, then the literal
`.trycloudflare.com`. Since `.` is outside the character class, the greedy
run with backtracking matches exactly the maximal run, as modelled here. -/
def matchAt (cs : List Char) : Option String :=
  if startsWithChars httpsChars cs then
    let rest := cs.drop 8
    let label := rest.takeWhile isLabelChar
    if !label.isEmpty && startsWithChars domChars (rest.drop label.length) then
      some (String.mk (httpsChars ++ label ++ domChars))
    else none
  else none

/-- Leftmost match of the tunnel-URL pattern (JavaScript `String.match`,
first capture group). -/
def findTunnelUrl : List Char → Option String
  | [] => none
  | c :: cs =>
    match matchAt (c :: cs) with
    | some u => some u
    | none => findTunnelUrl cs

/-- Model of `output.match(/(https:\/\/[a-z0-9\-]+\.trycloudflare\.com)/)?.[1]`. -/
def extractTunnelUrl (s : String) : Option String := findTunnelUrl s.data

/-- The shape every cached tunnel URL is claimed to have:
`https://<label>.trycloudflare.com` with `<label>` a non-empty string of
lowercase letters, digits and hyphens, and nothing after the suffix. -/
def isTunnelUrlShape (s : String) : Bool :=
  startsWithChars httpsChars s.data &&
  (let rest := s.data.drop 8
   let label := rest.takeWhile isLabelChar
   !label.isEmpty && decide (rest.drop label.length = domChars))

/-! ## startCloudflaredTunnel output scanning (first match wins)

Both the stdout and the stderr handler run the same code over the shared
`(tunnelUrl, found)` state; chunks are processed in arrival order. -/

/-- One `data` event of `startCloudflaredTunnel`:
`if (match && !found) { tunnelUrl = match[1]; found = true }`. -/
def onChunk (st : Option String × Bool) (chunk : String) : Option String × Bool :=
  match extractTunnelUrl chunk with
  | some u => if st.2 then st else (some u, true)
  | none => st

/-- The `(tunnelUrl, found)` state after all output chunks of one
`startCloudflaredTunnel` call. -/
def startTunnelScan (chunks : List String) : Option String × Bool :=
  chunks.foldl onChunk (none, false)

/-! ## getCloudflaredUrl (metrics probe) -/

/-- The per-line scan of `getCloudflaredUrl`: a line is examined only when
it contains both `https://` and `trycloudflare.com`; the first line whose
regular-expression match succeeds supplies the returned URL. -/
def scanMetricsLines : List String → Option String
  | [] => none
  | l :: ls =>
    if hasSubstrChars (("https://").data) l.data &&
       hasSubstrChars (("trycloudflare.com").data) l.data then
      match extractTunnelUrl l with
      | some u => some u
      | none => scanMetricsLines ls
    else scanMetricsLines ls

/-- Newline split (JavaScript `body.split('\n')`), written over the
character list so it evaluates by reduction. -/
def splitLines : List Char → List String
  | [] => [""]
  | c :: rest =>
    let r := splitLines rest
    if c = '\n' then "" :: r
    else
      match r with
      | [] => [String.mk [c]]
      | s :: ss => String.mk (c :: s.data) :: ss

/-- Model of `getCloudflaredUrl()` on a successfully fetched metrics body: split on
newlines and scan. -/
def getCloudflaredUrlModel (body : String) : Option String :=
  scanMetricsLines (splitLines body.data)

/-- One probe attempt: `none` models the axios request failing (the catch
returns `null`); otherwise the fetched metrics body is scanned. -/
def getCloudflaredUrlFromProbe : Option String → Option String
  | none => none
  | some body => getCloudflaredUrlModel body

/-- The wait loop of the `register-server` handler: up to `n` (60 in the
source) probe attempts, stopping at the first one that yields a URL. -/
def firstProbeUrl : Nat → List (Option String) → Option String
  | 0, _ => none
  | _ + 1, [] => none
  | n + 1, b :: bs =>
    match getCloudflaredUrlFromProbe b with
    | some u => some u
    | none => firstProbeUrl n bs

/-! ## A small JSON model

`save-registration` writes `JSON.stringify(data, null, 2)`;
`load-registration` and `updateServerUrlIfRegistered` read the file back
with `JSON.parse`. The value type and the executable printer and parser
below model the part of JSON the app exercises. -/

/-- JSON values (numbers are kept as their lexeme; the app only ever writes
strings, booleans and string arrays). -/
inductive JVal where
  | jnull : JVal
  | jbool : Bool → JVal
  | jnum : String → JVal
  | jstr : String → JVal
  | jarr : List JVal → JVal
  | jobj : List (String × JVal) → JVal

/-- JSON whitespace. -/
def isWsChar (c : Char) : Bool := c == ' ' || c == '\n' || c == '\t' || c == '\r'

/-- Skip JSON whitespace. -/
def skipWs (cs : List Char) : List Char := cs.dropWhile isWsChar

/-- Decimal digit. -/
def isDigitChar (c : Char) : Bool := '0' ≤ c && c ≤ '9'

/-- Characters a number lexeme may continue with. -/
def isNumChar (c : Char) : Bool :=
  isDigitChar c || c == '-' || c == '+' || c == '.' || c == 'e' || c == 'E'

/-- Parse the body of a JSON string after the opening quote, handling the
common escapes the app could ever produce. -/
def parseStringBody : List Char → Option (String × List Char)
  | [] => none
  | '"' :: rest => some ("", rest)
  | '\\' :: e :: rest => do
    let c ← (match e with
      | '"' => some '"'
      | '\\' => some '\\'
      | '/' => some '/'
      | 'n' => some '\n'
      | 't' => some '\t'
      | 'r' => some '\r'
      | _ => none)
    let (s, rest2) ← parseStringBody rest
    some (String.mk (c :: s.data), rest2)
  | c :: rest => do
    let (s, rest2) ← parseStringBody rest
    some (String.mk (c :: s.data), rest2)

/-- After whitespace, a `:` separator. -/
def expectColon (cs : List Char) : Option (List Char) :=
  match skipWs cs with
  | ':' :: rest => some rest
  | _ => none

mutual

/-- Fuel-indexed recursive-descent JSON value parser. -/
def parseJVal : Nat → List Char → Option (JVal × List Char)
  | 0, _ => none
  | Nat.succ fuel, cs0 =>
    match skipWs cs0 with
    | 'n' :: 'u' :: 'l' :: 'l' :: rest => some (JVal.jnull, rest)
    | 't' :: 'r' :: 'u' :: 'e' :: rest => some (JVal.jbool true, rest)
    | 'f' :: 'a' :: 'l' :: 's' :: 'e' :: rest => some (JVal.jbool false, rest)
    | '"' :: rest => do
      let (s, rest2) ← parseStringBody rest
      some (JVal.jstr s, rest2)
    | '[' :: rest => parseArrayRest fuel rest
    | '\x7b' :: rest => parseObjRest fuel rest
    | c :: rest =>
      if isDigitChar c || c == '-' then
        let lexeme := (c :: rest).takeWhile isNumChar
        some (JVal.jnum (String.mk lexeme), (c :: rest).drop lexeme.length)
      else none
    | [] => none

/-- Array contents after the opening bracket. -/
def parseArrayRest : Nat → List Char → Option (JVal × List Char)
  | 0, _ => none
  | Nat.succ fuel, cs =>
    match skipWs cs with
    | ']' :: rest => some (JVal.jarr [], rest)
    | cs2 => do
      let (v, rest) ← parseJVal fuel cs2
      parseArrayTail fuel [v] rest

/-- Further array elements, comma-separated, until the closing bracket. -/
def parseArrayTail : Nat → List JVal → List Char → Option (JVal × List Char)
  | 0, _, _ => none
  | Nat.succ fuel, acc, cs =>
    match skipWs cs with
    | ',' :: rest => do
      let (v, rest2) ← parseJVal fuel rest
      parseArrayTail fuel (acc ++ [v]) rest2
    | ']' :: rest => some (JVal.jarr acc, rest)
    | _ => none

/-- Object contents after the opening brace. -/
def parseObjRest : Nat → List Char → Option (JVal × List Char)
  | 0, _ => none
  | Nat.succ fuel, cs =>
    match skipWs cs with
    | '\x7d' :: rest => some (JVal.jobj [], rest)
    | '"' :: rest => do
      let (k, rest2) ← parseStringBody rest
      let rest3 ← expectColon rest2
      let (v, rest4) ← parseJVal fuel rest3
      parseObjTail fuel [(k, v)] rest4
    | _ => none

/-- Further object members, comma-separated, until the closing brace. -/
def parseObjTail : Nat → List (String × JVal) → List Char → Option (JVal × List Char)
  | 0, _, _ => none
  | Nat.succ fuel, acc, cs =>
    match skipWs cs with
    | ',' :: rest =>
      (match skipWs rest with
       | '"' :: rest2 => do
         let (k, rest3) ← parseStringBody rest2
         let rest4 ← expectColon rest3
         let (v, rest5) ← parseJVal fuel rest4
         parseObjTail fuel (acc ++ [(k, v)]) rest5
       | _ => none)
    | '\x7d' :: rest => some (JVal.jobj acc, rest)
    | _ => none

end

/-- Model of `JSON.parse`: a full-input parse; trailing garbage is a parse error. -/
def jsonParse (s : String) : Option JVal :=
  match parseJVal (s.data.length + 1) s.data with
  | some (v, rest) => if skipWs rest = [] then some v else none
  | none => none

/-- Object member lookup with JavaScript's duplicate-key behaviour (the
last binding wins). -/
def jGetField : List (String × JVal) → String → Option JVal
  | [], _ => none
  | (k, v) :: rest, key =>
    match jGetField rest key with
    | some r => some r
    | none => if k = key then some v else none

/-- Member access `obj.key` on a JSON value (non-objects have no members). -/
def jGet : JVal → String → Option JVal
  | JVal.jobj fs, key => jGetField fs key
  | _, _ => none

/-- JavaScript truthiness of a possibly-absent JSON value. -/
def jvalTruthy : Option JVal → Bool
  | none => false
  | some JVal.jnull => false
  | some (JVal.jbool b) => b
  | some (JVal.jstr s) => !(s == "")
  | some (JVal.jnum s) => !(s == "0")
  | some (JVal.jarr _) => true
  | some (JVal.jobj _) => true

/-! ## The Registration Record and its persistence

`submitLinkCode` saves the object
`{ os, device, models, url, nvidiaDriver, cudaVersion, userId, serverId,
   username, registered, timestamp }`; `serverId` and `username` come
straight from the server response and may be absent (`JSON.stringify`
omits `undefined` members). -/

/-- The registration record as persisted by the renderer's
`submitLinkCode`. -/
structure RegRecord where
  os : String
  device : String
  models : List String
  url : String
  nvidiaDriver : String
  cudaVersion : String
  userId : String
  serverId : Option String
  username : Option String
  registered : Bool
  timestamp : String
deriving DecidableEq

/-- JavaScript `toLowerCase()`, written over the character list so it
evaluates by reduction. -/
def toLowerStr (s : String) : String := String.mk (s.data.map Char.toLower)

/-- Model of `JSON.stringify` string escaping (the escapes the app's values could
contain). -/
def escapeJson (s : String) : String :=
  String.mk (s.data.foldr
    (fun c acc =>
      match c with
      | '"' => '\\' :: '"' :: acc
      | '\\' => '\\' :: '\\' :: acc
      | '\n' => '\\' :: 'n' :: acc
      | '\t' => '\\' :: 't' :: acc
      | '\r' => '\\' :: 'r' :: acc
      | c => c :: acc)
    [])

/-- A JSON string literal. -/
def quoteJsonString (s : String) : String := "\"" ++ escapeJson s ++ "\""

/-- The element lines of a non-empty serialized model array. -/
def joinModelLines : List String → String
  | [] => ""
  | [x] => "    " ++ quoteJsonString x
  | x :: y :: xs => "    " ++ quoteJsonString x ++ ",\n" ++ joinModelLines (y :: xs)

/-- Model of `JSON.stringify(models, null, 2)` as it appears nested at depth one:
element lines indented four spaces, closing bracket two. -/
def serializeModels : List String → String
  | [] => "[]"
  | x :: xs => "[\n" ++ joinModelLines (x :: xs) ++ "\n  ]"

/-- Model of `JSON.stringify(record, null, 2)` for the record `submitLinkCode`
persists, member order as in the source; absent `serverId`/`username`
members are omitted. -/
def serializeRecord (r : RegRecord) : String :=
  "\x7b\n  \"os\": " ++ quoteJsonString r.os ++
  ",\n  \"device\": " ++ quoteJsonString r.device ++
  ",\n  \"models\": " ++ serializeModels r.models ++
  ",\n  \"url\": " ++ quoteJsonString r.url ++
  ",\n  \"nvidiaDriver\": " ++ quoteJsonString r.nvidiaDriver ++
  ",\n  \"cudaVersion\": " ++ quoteJsonString r.cudaVersion ++
  ",\n  \"userId\": " ++ quoteJsonString r.userId ++
  (match r.serverId with
   | some s => ",\n  \"serverId\": " ++ quoteJsonString s
   | none => "") ++
  (match r.username with
   | some s => ",\n  \"username\": " ++ quoteJsonString s
   | none => "") ++
  ",\n  \"registered\": " ++ (if r.registered then "true" else "false") ++
  ",\n  \"timestamp\": " ++ quoteJsonString r.timestamp ++
  "\n\x7d"

/-- The registration file: `none` when `registration.json` does not exist,
otherwise its text. -/
abbrev FileStore := Option String

/-- The `save-registration` handler: `null` deletes the file, any other
data fully overwrites it with its serialization. -/
def saveRegistrationFile (data : Option RegRecord) (_store : FileStore) : FileStore :=
  match data with
  | none => none
  | some r => some (serializeRecord r)

/-- The `load-registration` handler: `null` when the file does not exist;
otherwise `JSON.parse` of its contents, any error being caught and turned
into `null` as well. -/
def loadRegistrationFile : FileStore → Option JVal
  | none => none
  | some s => jsonParse s

/-- The renderer's startup check `registration && registration.registered`
deciding whether a loaded record is offered back as previously
registered. -/
def offeredAsPreviouslyRegistered (reg : Option JVal) : Bool :=
  match reg with
  | none => false
  | some v => jvalTruthy (jGet v ("registered"))

/-- Prefix of a string (the part of the new contents already on disk when
a crash interrupts the write). -/
def strTake (s : String) (k : Nat) : String := String.mk (s.data.take k)

/-- The `save-registration` write under a crash: `fs.writeFileSync`
truncates the file and writes the serialization in place, so a crash after
`k` characters leaves exactly that prefix — the previous contents are
already gone. -/
def saveRegistrationCrash (data : RegRecord) (k : Nat) (_store : FileStore) : FileStore :=
  some (strTake (serializeRecord data) k)

/-- Modelled from the spec: the write-to-temp-then-rename save the spec
requires (`save(record)` "atomic with respect to the process's own
crash"); a crash leaves either the old contents (rename not reached) or
the complete new record, never anything in between. This definition exists
only to be compared with `saveRegistrationCrash`. -/
def saveRegistrationAtomic (data : RegRecord) (renamed : Bool) (store : FileStore) : FileStore :=
  if renamed then some (serializeRecord data) else store

/-! ## The register-server handler and the renderer's submit flow -/

/-- The strings `collectSystemInfo` contributes to payloads and results
(opaque inputs gathered from the OS). -/
structure SysStrings where
  deviceId : String
  osInfoStr : String
  hardwareStr : String
  nvidiaDriver : String
  cudaVersion : String
  osDisplay : String
deriving DecidableEq

/-- The body of a `POST /server/register` call. -/
structure RegisterPayload where
  link_code : String
  deviceId : String
  osInfo : String
  hardware : String
  url : String
  models : List String
deriving DecidableEq

/-- The fields of the remote directory service's response body the handler
examines. -/
structure ServerResponse where
  code : Option String
  userId : Option String
  serverId : Option String
  username : Option String
deriving DecidableEq

/-- The `data` object of a successful `register-server` result. -/
structure RegisterData where
  registered : Bool
  userId : Option String
  serverId : Option String
  username : Option String
  url : String
  os : String
  device : String
  models : List String
  nvidiaDriver : String
  cudaVersion : String
deriving DecidableEq

/-- The `register-server` IPC result: `{success: true, data}` or
`{success: false, error}`. -/
inductive RegisterResult where
  | ok : RegisterData → RegisterResult
  | err : String → RegisterResult
deriving DecidableEq

/-- The explicit success-marker check:
`response.data.code !== 'SERVER_REGISTER_SUCCESS' && !response.data.userId`
(true when the registration must be rejected). -/
def registerConfirmFailed (resp : ServerResponse) : Bool :=
  decide (resp.code ≠ some ("SERVER_REGISTER_SUCCESS")) && !(jsTruthy resp.userId)

/-- The handler's advertised-URL resolution: reuse the cached tunnel URL;
otherwise probe up to 60 times, caching a hit; otherwise fall back to the
local inference address. Returns the advertised URL and the cache
afterwards (the fallback is not cached). -/
def resolvePublicUrl (ollamaUrl : String) (cached : Option String)
    (probes : List (Option String)) : String × Option String :=
  match cached with
  | some u => (u, some u)
  | none =>
    match firstProbeUrl 60 probes with
    | some u => (u, some u)
    | none => (ollamaUrl, none)

/-- The payload the `register-server` handler sends. -/
def registerPayload (ollamaUrl linkCode : String) (sys : SysStrings)
    (models : List String) (cached : Option String)
    (probes : List (Option String)) : RegisterPayload :=
  { link_code := toLowerStr linkCode
    deviceId := sys.deviceId
    osInfo := sys.osInfoStr
    hardware := sys.hardwareStr
    url := (resolvePublicUrl ollamaUrl cached probes).1
    models := models }

/-- The `register-server` handler: resolve the advertised URL, send the
payload, and accept the response only when it carries the success marker;
a missing marker or a failed request yields `{success: false}`. The issued
payload is returned alongside the result. -/
def registerServerHandler (ollamaUrl linkCode : String) (sys : SysStrings)
    (models : List String) (cached : Option String)
    (probes : List (Option String))
    (httpResult : Except String ServerResponse) : RegisterPayload × RegisterResult :=
  let payload := registerPayload ollamaUrl linkCode sys models cached probes
  match httpResult with
  | Except.error msg => (payload, RegisterResult.err msg)
  | Except.ok resp =>
    if registerConfirmFailed resp then
      (payload, RegisterResult.err ("Server did not confirm registration"))
    else
      (payload,
       RegisterResult.ok
        { registered := true
          userId := resp.userId
          serverId := resp.serverId
          username := resp.username
          url := payload.url
          os := sys.osDisplay
          device := sys.deviceId
          models := models
          nvidiaDriver := sys.nvidiaDriver
          cudaVersion := sys.cudaVersion })

/-- The record `submitLinkCode` builds for `saveRegistration` from a
successful result (`data.userId || code` for the user id, `'-'` defaults
for display fields, `registered: true`). -/
def submitSaveRecord (code ts : String) (d : RegisterData) : RegRecord :=
  { os := jsOr d.os ("-")
    device := jsOr d.device ("-")
    models := d.models
    url := jsOr d.url ("-")
    nvidiaDriver := jsOr d.nvidiaDriver ("-")
    cudaVersion := jsOr d.cudaVersion ("-")
    userId := jsOrOpt d.userId code
    serverId := d.serverId
    username := d.username
    registered := true
    timestamp := ts }

/-- Record-level view of the `save-registration` handler (the parsed
contents of the file it leaves behind). -/
def saveRegistrationRec (data : Option RegRecord) (_store : Option RegRecord) :
    Option RegRecord :=
  match data with
  | none => none
  | some r => some r

/-- The renderer's `submitLinkCode` around the handler: persist the record
only on a confirmed success (`success && data.registered`); any failure
reaches the error screen and writes nothing. Returns the store afterwards
and the surfaced result. -/
def submitFlow (ollamaUrl linkCode ts : String) (sys : SysStrings)
    (models : List String) (cached : Option String)
    (probes : List (Option String))
    (httpResult : Except String ServerResponse)
    (store : Option RegRecord) : Option RegRecord × RegisterResult :=
  match (registerServerHandler ollamaUrl linkCode sys models cached probes httpResult).2 with
  | RegisterResult.ok d =>
    if d.registered then
      (saveRegistrationRec (some (submitSaveRecord linkCode ts d)) store,
       RegisterResult.ok d)
    else
      (store, RegisterResult.err ("Registration failed - server did not confirm"))
  | RegisterResult.err e => (store, RegisterResult.err e)

/-! ## updateServerUrlIfRegistered (URL drift) -/

/-- Model of `updateServerUrlIfRegistered(newUrl)`: skip when no valid registered
record with a truthy `serverId` exists or the URL is unchanged; otherwise
send one update call whose `link_code` is the lower-cased stored
`serverId`, and persist the new URL only when the call succeeds. Returns
the outgoing calls and the store afterwards. -/
def updateServerUrlIfRegistered (sys : SysStrings) (models : List String)
    (store : Option RegRecord) (newUrl : String) (httpOk : Bool) :
    List RegisterPayload × Option RegRecord :=
  match store with
  | none => ([], none)
  | some r =>
    if !r.registered || !(jsTruthy r.serverId) then ([], some r)
    else if r.url = newUrl then ([], some r)
    else
      let payload : RegisterPayload :=
        { link_code := toLowerStr (r.serverId.getD "")
          deviceId := sys.deviceId
          osInfo := sys.osInfoStr
          hardware := sys.hardwareStr
          url := newUrl
          models := models }
      if httpOk then ([payload], some { r with url := newUrl })
      else ([payload], some r)

/-! ## The cached tunnel URL (`detectedTunnelUrl`) -/

/-- The operations that may assign `detectedTunnelUrl`, parameterized by
their external inputs: the output chunks of a tunnel start, or the metrics
body of a probe (`none` for a failed request). -/
inductive TunnelUrlEvent where
  | tunnelStart : List String → TunnelUrlEvent
  | monitorTick : Option String → TunnelUrlEvent
  | checkCloudflared : Option String → TunnelUrlEvent
  | getTunnelUrl : Option String → TunnelUrlEvent
  | getSystemInfo : Option String → TunnelUrlEvent
  | registerProbe : List (Option String) → TunnelUrlEvent

/-- How each operation updates `detectedTunnelUrl`, following the
assignments in the source: a value is stored only when positively
extracted; `check-cloudflared` and the register loop probe only when the
cache is empty; the register fallback to the local address is not
cached. -/
def stepTunnelUrl (cur : Option String) : TunnelUrlEvent → Option String
  | TunnelUrlEvent.tunnelStart chunks =>
    match (startTunnelScan chunks).1 with
    | some u => some u
    | none => cur
  | TunnelUrlEvent.monitorTick body =>
    match getCloudflaredUrlFromProbe body with
    | some u => some u
    | none => cur
  | TunnelUrlEvent.checkCloudflared body =>
    match cur with
    | some u => some u
    | none =>
      match getCloudflaredUrlFromProbe body with
      | some u => some u
      | none => none
  | TunnelUrlEvent.getTunnelUrl body =>
    match getCloudflaredUrlFromProbe body with
    | some u => some u
    | none => cur
  | TunnelUrlEvent.getSystemInfo body =>
    match getCloudflaredUrlFromProbe body with
    | some u => some u
    | none => cur
  | TunnelUrlEvent.registerProbe probes =>
    match cur with
    | some u => some u
    | none =>
      match firstProbeUrl 60 probes with
      | some u => some u
      | none => none

/-! ## Helper lemmas -/

/-- A complete write leaves exactly the serialized contents. -/
theorem strTake_len (s : String) : strTake s s.length = s := by
  cases s with
  | mk l => simp [strTake, String.length]

/-- The serialization of a record is never the empty string (it opens with
the object brace). -/
theorem serializeRecord_ne_empty (r : RegRecord) : serializeRecord r ≠ "" := by
  intro h
  have hlen := congrArg String.length h
  have h0 : ("" : String).length = 0 := rfl
  have h9 : ("\x7b\n  \"os\": " : String).length = 10 := by decide
  rw [h0] at hlen
  simp only [serializeRecord, String.length_append] at hlen
  rw [h9] at hlen
  omega

/-- Probing never yields a URL when every attempt comes back empty. -/
theorem firstProbeUrl_eq_none (probes : List (Option String))
    (h : ∀ b ∈ probes, getCloudflaredUrlFromProbe b = none) :
    ∀ n, firstProbeUrl n probes = none := by
  induction probes with
  | nil => intro n; cases n <;> rfl
  | cons b bs ih =>
    intro n
    cases n with
    | zero => rfl
    | succ m =>
      have hb : getCloudflaredUrlFromProbe b = none := h b (by simp)
      simp only [firstProbeUrl, hb]
      exact ih (fun x hx => h x (by simp [hx])) m

/-! ## C5 — unlink clears the record for good -/

/-- C5: after saving the clear value (`null`), whatever the store held
before, a subsequent load returns the absent result (`none`), and the
renderer's startup check does not offer the cleared record back as
previously registered. -/
theorem unlink_then_load_absent (st : FileStore) :
    loadRegistrationFile (saveRegistrationFile none st) = none ∧
    offeredAsPreviouslyRegistered (loadRegistrationFile (saveRegistrationFile none st)) = false :=
  ⟨rfl, rfl⟩

/-- Witness for C5 at a concrete prior store. -/
theorem unlink_then_load_absent_witness :
    loadRegistrationFile (saveRegistrationFile none (some ("old contents"))) = none ∧
    offeredAsPreviouslyRegistered
      (loadRegistrationFile (saveRegistrationFile none (some ("old contents")))) = false :=
  unlink_then_load_absent (some ("old contents"))

/-! ## C8 — load conflates read errors with absence -/

/-- C8 counterexample: loading an existing but unparsable registration file
returns exactly the same result as loading when no file exists — the
failure is not surfaced distinctly from the absent result. -/
theorem load_error_conflated_counterexample :
    loadRegistrationFile (some ("not json")) = loadRegistrationFile none := rfl

/-- C8 amended: load returns the absent result (`none`) when no file
exists (it never throws for a missing record), and a parse failure while
reading an existing file is caught and also yields `none` —
indistinguishable from the absent result; only a successful parse returns
the record. -/
theorem load_absent_and_error_both_none (s : String) :
    loadRegistrationFile none = none ∧
    (jsonParse s = none → loadRegistrationFile (some s) = loadRegistrationFile none) ∧
    (∀ v, jsonParse s = some v → loadRegistrationFile (some s) = some v) := by
  refine ⟨rfl, ?_, ?_⟩
  · intro h
    simp [loadRegistrationFile, h]
  · intro v h
    simp [loadRegistrationFile, h]

/-- Witness for the amended C8 theorem at concrete file contents. -/
theorem load_absent_and_error_both_none_witness :
    loadRegistrationFile (some ("nonsense")) = loadRegistrationFile none ∧
    loadRegistrationFile (some ("null")) = some JVal.jnull :=
  ⟨(load_absent_and_error_both_none ("nonsense")).2.1 rfl,
   (load_absent_and_error_both_none ("null")).2.2 JVal.jnull rfl⟩

/-! ## C7 — save is a direct overwrite, not an atomic rename -/

/-- Old-record fixture for the crash analysis. -/
def c7recOld : RegRecord :=
  { os := "linux 6.8", device := "host1", models := ["m1"]
    url := "https://old1.trycloudflare.com", nvidiaDriver := "550"
    cudaVersion := "12.4", userId := "u1", serverId := some "SRV1"
    username := some "alice", registered := true, timestamp := "t1" }

/-- New-record fixture for the crash analysis. -/
def c7recNew : RegRecord :=
  { c7recOld with url := "https://new2.trycloudflare.com", timestamp := "t2" }

/-- C7 counterexample: a crash at the very start of the in-place write
leaves an empty file — neither the old record nor the new one, so the save
is not write-to-temp-then-rename atomic; the next load then reports the
absent result even though a record had been stored. -/
theorem save_crash_counterexample :
    saveRegistrationCrash c7recNew 0 (some (serializeRecord c7recOld)) = some "" ∧
    some "" ≠ some (serializeRecord c7recOld) ∧
    saveRegistrationFile (some c7recNew) (some (serializeRecord c7recOld)) ≠ some "" ∧
    loadRegistrationFile (saveRegistrationCrash c7recNew 0 (some (serializeRecord c7recOld))) = none := by
  refine ⟨rfl, by decide, by decide, rfl⟩

/-- C7 amended: `save(record)` fully overwrites the persisted record — a
write that runs to completion leaves exactly what the handler saves — but
it is a single in-place write, not write-to-temp-then-rename: a crash at
the start of the write leaves an empty file, which is not the
serialization of any record, and the next load reports it as absent. The
spec-modelled atomic save, in contrast, always leaves either the old store
or the complete new record. -/
theorem save_overwrites_but_not_atomic (r : RegRecord) (st : FileStore) :
    saveRegistrationCrash r (serializeRecord r).length st = saveRegistrationFile (some r) st ∧
    saveRegistrationCrash r 0 st = some "" ∧
    serializeRecord r ≠ "" ∧
    loadRegistrationFile (some "") = none ∧
    (∀ b : Bool, saveRegistrationAtomic r b st = st ∨
       saveRegistrationAtomic r b st = saveRegistrationFile (some r) st) := by
  refine ⟨?_, rfl, serializeRecord_ne_empty r, rfl, ?_⟩
  · simp [saveRegistrationCrash, saveRegistrationFile, strTake_len]
  · intro b
    cases b
    · exact Or.inl rfl
    · exact Or.inr rfl

/-- Witness for the amended C7 theorem at the concrete crash fixtures. -/
theorem save_overwrites_but_not_atomic_witness :
    saveRegistrationCrash c7recNew (serializeRecord c7recNew).length
        (some (serializeRecord c7recOld))
      = saveRegistrationFile (some c7recNew) (some (serializeRecord c7recOld)) ∧
    saveRegistrationCrash c7recNew 0 (some (serializeRecord c7recOld)) = some "" ∧
    serializeRecord c7recNew ≠ "" ∧
    loadRegistrationFile (some "") = none ∧
    (∀ b : Bool,
       saveRegistrationAtomic c7recNew b (some (serializeRecord c7recOld))
           = some (serializeRecord c7recOld) ∨
       saveRegistrationAtomic c7recNew b (some (serializeRecord c7recOld))
           = saveRegistrationFile (some c7recNew) (some (serializeRecord c7recOld))) :=
  save_overwrites_but_not_atomic c7recNew (some (serializeRecord c7recOld))

/-! ## Shared concrete fixtures for witnesses -/

/-- Concrete system strings used by witnesses. -/
def sampleSys : SysStrings :=
  { deviceId := "host1", osInfoStr := "osinfo", hardwareStr := "hw"
    nvidiaDriver := "550", cudaVersion := "12.4", osDisplay := "linux 6.8" }

/-- Concrete registered record used by witnesses. -/
def sampleRec : RegRecord :=
  { os := "linux 6.8", device := "host1", models := ["m1"]
    url := "https://ab12.trycloudflare.com", nvidiaDriver := "550"
    cudaVersion := "12.4", userId := "u1", serverId := some "SRV1"
    username := some "alice", registered := true, timestamp := "t1" }

/-! ## C1 — an unconfirmed registration response is a failure -/

/-- C1: a response whose `code` differs from `SERVER_REGISTER_SUCCESS` and
whose `userId` is missing or empty makes the `register-server` handler
return a failure with the error message `Server did not confirm
registration` — never a success — and the renderer flow around it leaves
the persisted registration record untouched. -/
theorem register_unconfirmed_fails (ollamaUrl linkCode ts : String)
    (sys : SysStrings) (models : List String) (cached : Option String)
    (probes : List (Option String)) (resp : ServerResponse)
    (store : Option RegRecord)
    (hcode : resp.code ≠ some ("SERVER_REGISTER_SUCCESS"))
    (huser : resp.userId = none ∨ resp.userId = some "") :
    (registerServerHandler ollamaUrl linkCode sys models cached probes
        (Except.ok resp)).2
      = RegisterResult.err ("Server did not confirm registration") ∧
    (submitFlow ollamaUrl linkCode ts sys models cached probes
        (Except.ok resp) store).1 = store := by
  have hfail : registerConfirmFailed resp = true := by
    rcases huser with h | h <;> simp [registerConfirmFailed, jsTruthy, h, hcode]
  constructor
  · simp [registerServerHandler, hfail]
  · simp [submitFlow, registerServerHandler, hfail]

/-- Witness for C1 at a concrete unconfirmed response. -/
theorem register_unconfirmed_fails_witness :
    (registerServerHandler ("http://localhost:11434") ("ABC123") sampleSys ["m1"]
        (some ("https://ab12.trycloudflare.com")) []
        (Except.ok ⟨some ("SERVER_ERROR"), none, none, none⟩)).2
      = RegisterResult.err ("Server did not confirm registration") ∧
    (submitFlow ("http://localhost:11434") ("ABC123") ("t1") sampleSys ["m1"]
        (some ("https://ab12.trycloudflare.com")) []
        (Except.ok ⟨some ("SERVER_ERROR"), none, none, none⟩)
        (some sampleRec)).1 = some sampleRec :=
  register_unconfirmed_fails ("http://localhost:11434") ("ABC123") ("t1")
    sampleSys ["m1"] (some ("https://ab12.trycloudflare.com")) []
    ⟨some ("SERVER_ERROR"), none, none, none⟩ (some sampleRec)
    (by decide) (Or.inl rfl)

/-! ## C2 — unchanged URL issues no update call -/

/-- C2: with a persisted record that is registered under a non-empty
`serverId`, when the freshly observed tunnel URL equals the stored one,
`updateServerUrlIfRegistered` issues no outgoing call and leaves the
record unchanged — and a second invocation with the same URL again issues
no call. -/
theorem updateUrl_unchanged_no_call (sys : SysStrings) (models : List String)
    (r : RegRecord) (newUrl : String) (ok1 ok2 : Bool)
    (hreg : r.registered = true) (hsid : jsTruthy r.serverId = true)
    (hurl : r.url = newUrl) :
    updateServerUrlIfRegistered sys models (some r) newUrl ok1 = ([], some r) ∧
    updateServerUrlIfRegistered sys models
        (updateServerUrlIfRegistered sys models (some r) newUrl ok1).2
        newUrl ok2 = ([], some r) := by
  have h1 : updateServerUrlIfRegistered sys models (some r) newUrl ok1 = ([], some r) := by
    simp [updateServerUrlIfRegistered, hreg, hsid, hurl]
  refine ⟨h1, ?_⟩
  rw [h1]
  simp [updateServerUrlIfRegistered, hreg, hsid, hurl]

/-- Witness for C2: the sample registered record with its own stored URL
observed again. -/
theorem updateUrl_unchanged_no_call_witness :
    updateServerUrlIfRegistered sampleSys ["m1"] (some sampleRec)
        ("https://ab12.trycloudflare.com") true = ([], some sampleRec) ∧
    updateServerUrlIfRegistered sampleSys ["m1"]
        (updateServerUrlIfRegistered sampleSys ["m1"] (some sampleRec)
          ("https://ab12.trycloudflare.com") true).2
        ("https://ab12.trycloudflare.com") false = ([], some sampleRec) :=
  updateUrl_unchanged_no_call sampleSys ["m1"] sampleRec
    ("https://ab12.trycloudflare.com") true false (by decide) (by decide) (by decide)

/-! ## C3 — updates use the lower-cased stored serverId -/

/-- C3: every update call `updateServerUrlIfRegistered` issues carries as
its `link_code` the lower-casing of the stored `serverId` of the persisted
record (the original one-time link code is not even an input of the
operation). -/
theorem updateUrl_uses_lowercased_serverId (sys : SysStrings)
    (models : List String) (r : RegRecord) (newUrl : String) (httpOk : Bool)
    (sid : String) (hsid : r.serverId = some sid) (p : RegisterPayload)
    (hp : p ∈ (updateServerUrlIfRegistered sys models (some r) newUrl httpOk).1) :
    p.link_code = toLowerStr sid := by
  simp only [updateServerUrlIfRegistered] at hp
  split at hp
  · simp at hp
  · split at hp
    · simp at hp
    · split at hp <;>
      · simp only [List.mem_singleton] at hp
        subst hp
        simp [hsid]

/-- Witness for C3: a drifted URL on the sample record produces one call
whose link code is the lower-cased stored serverId. -/
theorem updateUrl_uses_lowercased_serverId_witness :
    ({ link_code := "srv1", deviceId := "host1", osInfo := "osinfo"
       hardware := "hw", url := "https://new9.trycloudflare.com"
       models := ["m1"] } : RegisterPayload).link_code = toLowerStr ("SRV1") :=
  updateUrl_uses_lowercased_serverId sampleSys ["m1"] sampleRec
    ("https://new9.trycloudflare.com") true "SRV1" rfl _ (by decide)

/-! ## C4 — tunnel discovery timeout falls back to the local address -/

/-- C4: with no cached tunnel URL and every probe attempt returning
nothing, the `register-server` handler advertises the local inference
address as the payload URL, and on a confirmed-success response the
record persisted by the renderer flow is registered with exactly that
fallback address as its URL. -/
theorem register_fallback_localhost (ollamaUrl linkCode ts : String)
    (sys : SysStrings) (models : List String) (probes : List (Option String))
    (resp : ServerResponse) (store : Option RegRecord)
    (hollama : ollamaUrl ≠ "")
    (hprobes : ∀ b ∈ probes, getCloudflaredUrlFromProbe b = none)
    (hconfirm : resp.code = some ("SERVER_REGISTER_SUCCESS") ∨ jsTruthy resp.userId = true) :
    (registerServerHandler ollamaUrl linkCode sys models none probes
        (Except.ok resp)).1.url = ollamaUrl ∧
    Option.map (fun r => r.url)
        (submitFlow ollamaUrl linkCode ts sys models none probes
          (Except.ok resp) store).1 = some ollamaUrl ∧
    Option.map (fun r => r.registered)
        (submitFlow ollamaUrl linkCode ts sys models none probes
          (Except.ok resp) store).1 = some true := by
  have hresolve : resolvePublicUrl ollamaUrl none probes = (ollamaUrl, none) := by
    simp [resolvePublicUrl, firstProbeUrl_eq_none probes hprobes 60]
  have hok : registerConfirmFailed resp = false := by
    rcases hconfirm with h | h <;> simp [registerConfirmFailed, h]
  refine ⟨?_, ?_, ?_⟩
  · simp [registerServerHandler, registerPayload, hresolve, hok]
  · simp [submitFlow, registerServerHandler, registerPayload, hresolve, hok,
      submitSaveRecord, saveRegistrationRec, jsOr, hollama]
  · simp [submitFlow, registerServerHandler, registerPayload, hresolve, hok,
      submitSaveRecord, saveRegistrationRec]

/-- Witness for C4: two empty probe attempts, then a confirmed response. -/
theorem register_fallback_localhost_witness :
    (registerServerHandler ("http://localhost:11434") ("ABC123") sampleSys ["m1"]
        none [none, some ("metrics without a url")]
        (Except.ok ⟨some ("SERVER_REGISTER_SUCCESS"), some ("U1"), some ("SRV1"), some ("alice")⟩)).1.url
      = "http://localhost:11434" ∧
    Option.map (fun r => r.url)
        (submitFlow ("http://localhost:11434") ("ABC123") ("t1") sampleSys ["m1"]
          none [none, some ("metrics without a url")]
          (Except.ok ⟨some ("SERVER_REGISTER_SUCCESS"), some ("U1"), some ("SRV1"), some ("alice")⟩)
          none).1 = some ("http://localhost:11434") ∧
    Option.map (fun r => r.registered)
        (submitFlow ("http://localhost:11434") ("ABC123") ("t1") sampleSys ["m1"]
          none [none, some ("metrics without a url")]
          (Except.ok ⟨some ("SERVER_REGISTER_SUCCESS"), some ("U1"), some ("SRV1"), some ("alice")⟩)
          none).1 = some true :=
  register_fallback_localhost ("http://localhost:11434") ("ABC123") ("t1")
    sampleSys ["m1"] [none, some ("metrics without a url")]
    ⟨some ("SERVER_REGISTER_SUCCESS"), some ("U1"), some ("SRV1"), some ("alice")⟩
    none (by decide) (by decide) (Or.inl rfl)

/-! ## C6 — the registered-record invariant fails for serverId -/

/-- Response fixture: the server confirms with the success code but omits
`userId` and `serverId`, which the contract allows. -/
def c6resp : ServerResponse :=
  { code := some "SERVER_REGISTER_SUCCESS", userId := none
    serverId := none, username := none }

/-- C6 counterexample: a confirmed success whose response omits `serverId`
persists a record with `registered = true` and an absent `serverId` — the
claimed invariant (`registered` implies a present, non-empty link
identifier) does not hold for every persisted record. -/
theorem registered_without_serverId_counterexample :
    Option.map (fun r => (r.registered, r.serverId, r.url))
      (submitFlow ("http://localhost:11434") ("ABC123") ("t1") sampleSys ["m1"]
        (some ("https://ab12.trycloudflare.com")) [] (Except.ok c6resp) none).1
      = some (true, none, "https://ab12.trycloudflare.com") := by decide

/-- C6 amended: every record the registration flow persists has
`registered = true` and a non-empty URL, and the URL-drift update path
only ever rewrites the stored URL to the (non-empty) freshly observed
one — but the `serverId` may be absent or empty when the server response
omitted it. -/
theorem registered_record_url_nonempty (linkCode ts : String)
    (d : RegisterData) (sys : SysStrings) (models : List String)
    (store : Option RegRecord) (newUrl : String) (httpOk : Bool)
    (r2 : RegRecord) (hnew : newUrl ≠ "") :
    ((submitSaveRecord linkCode ts d).registered = true ∧
     (submitSaveRecord linkCode ts d).url ≠ "") ∧
    ((updateServerUrlIfRegistered sys models store newUrl httpOk).2 = some r2 →
       store = some r2 ∨ r2.url ≠ "") := by
  constructor
  · refine ⟨rfl, ?_⟩
    simp only [submitSaveRecord, jsOr]
    split
    · simp
    · assumption
  · intro h
    match store with
    | none => simp [updateServerUrlIfRegistered] at h
    | some r =>
      simp only [updateServerUrlIfRegistered] at h
      split at h
      · exact Or.inl h
      · split at h
        · exact Or.inl h
        · split at h
          · refine Or.inr ?_
            have : r2.url = newUrl := by
              cases h' : r2
              simp [h'] at h
              simp [h', ← h.2]
            rw [this]; exact hnew
          · exact Or.inl h

/-- Record fixture: the sample record after a successful URL-drift
update. -/
def c6rec2 : RegRecord := { sampleRec with url := "https://new9.trycloudflare.com" }

/-- Register-data fixture for the amended C6 witness. -/
def c6data : RegisterData :=
  { registered := true, userId := some "U1", serverId := none, username := none
    url := "https://ab12.trycloudflare.com", os := "linux 6.8", device := "host1"
    models := ["m1"], nvidiaDriver := "550", cudaVersion := "12.4" }

/-- Witness for the amended C6 theorem at concrete inputs. -/
theorem registered_record_url_nonempty_witness :
    ((submitSaveRecord ("ABC123") ("t1") c6data).registered = true ∧
     (submitSaveRecord ("ABC123") ("t1") c6data).url ≠ "") ∧
    (some sampleRec = some c6rec2 ∨ c6rec2.url ≠ "") :=
  ⟨(registered_record_url_nonempty ("ABC123") ("t1") c6data sampleSys ["m1"]
      (some sampleRec) ("https://new9.trycloudflare.com") true c6rec2 (by decide)).1,
   (registered_record_url_nonempty ("ABC123") ("t1") c6data sampleSys ["m1"]
      (some sampleRec) ("https://new9.trycloudflare.com") true c6rec2 (by decide)).2
     (by decide)⟩

/-! ## C9 — first URL match wins during tunnel start -/

/-- Once a URL has been found, further chunks leave the scan state
untouched. -/
theorem foldl_onChunk_found (chunks : List String) (st : Option String × Bool)
    (h : st.2 = true) : chunks.foldl onChunk st = st := by
  induction chunks generalizing st with
  | nil => rfl
  | cons c cs ih =>
    have hstep : onChunk st c = st := by
      unfold onChunk
      cases hm : extractTunnelUrl c <;> simp [h]
    rw [List.foldl_cons, hstep]
    exact ih st h

/-- C9: across the interleaved stdout and stderr chunks of one tunnel
start, the adopted URL is the first chunk match in arrival order — the
head of all matches — and once the first match has been found, any further
chunks leave the adopted URL unchanged. -/
theorem first_tunnel_match_wins (chunks : List String) :
    (startTunnelScan chunks).1 = (chunks.filterMap extractTunnelUrl).head? ∧
    (∀ more, (startTunnelScan chunks).2 = true →
       (startTunnelScan (chunks ++ more)).1 = (startTunnelScan chunks).1) := by
  constructor
  · show (chunks.foldl onChunk (none, false)).1 = _
    induction chunks with
    | nil => rfl
    | cons c cs ih =>
      rw [List.foldl_cons]
      cases hm : extractTunnelUrl c with
      | some u =>
        have hstep : onChunk (none, false) c = (some u, true) := by
          simp [onChunk, hm]
        rw [hstep, foldl_onChunk_found cs _ rfl]
        simp [List.filterMap_cons, hm]
      | none =>
        have hstep : onChunk (none, false) c = (none, false) := by
          simp [onChunk, hm]
        rw [hstep]
        simpa [List.filterMap_cons, hm] using ih
  · intro more h
    show (List.foldl onChunk (none, false) (chunks ++ more)).1 = _
    rw [List.foldl_append]
    rw [foldl_onChunk_found more (List.foldl onChunk (none, false) chunks) h]
    rfl

/-- Witness for C9: three chunks with two matches adopt the first, and a
later extra match changes nothing. -/
theorem first_tunnel_match_wins_witness :
    (startTunnelScan ["boot", "at https://a1.trycloudflare.com ok",
        "https://b2.trycloudflare.com"]).1
      = (["boot", "at https://a1.trycloudflare.com ok",
          "https://b2.trycloudflare.com"].filterMap extractTunnelUrl).head? ∧
    (startTunnelScan (["boot", "at https://a1.trycloudflare.com ok",
        "https://b2.trycloudflare.com"] ++ ["https://c3.trycloudflare.com"])).1
      = (startTunnelScan ["boot", "at https://a1.trycloudflare.com ok",
          "https://b2.trycloudflare.com"]).1 :=
  ⟨(first_tunnel_match_wins _).1,
   (first_tunnel_match_wins _).2 ["https://c3.trycloudflare.com"] (by decide)⟩

/-! ## C10 — every cached tunnel URL matches the hostname pattern -/

/-- Prefix test succeeds on an appended prefix. -/
theorem startsWithChars_append (p t : List Char) :
    startsWithChars p (p ++ t) = true := by
  induction p with
  | nil => rfl
  | cons a as ih => simp [startsWithChars, ih]

/-- Everything `takeWhile` keeps satisfies the predicate. -/
theorem all_takeWhile (p : Char → Bool) (l : List Char) :
    (l.takeWhile p).all p = true := by
  induction l with
  | nil => rfl
  | cons c cs ih =>
    by_cases h : p c = true <;> simp [List.takeWhile_cons, h, ih]

/-- `takeWhile` over an append stops exactly at the first failing
character of the suffix. -/
theorem takeWhile_append_not (p : Char → Bool) (l : List Char) (c : Char)
    (t : List Char) (h1 : l.all p = true) (h2 : p c = false) :
    ((l ++ c :: t).takeWhile p) = l := by
  induction l with
  | nil => simp [List.takeWhile_cons, h2]
  | cons a as ih =>
    rw [List.all_cons, Bool.and_eq_true] at h1
    simp [List.takeWhile_cons, h1.1, ih h1.2]

/-- A successful match at one position yields a string of the tunnel-URL
shape. -/
theorem matchAt_shape {cs : List Char} {u : String} (h : matchAt cs = some u) :
    isTunnelUrlShape u = true := by
  simp only [matchAt] at h
  split at h
  · split at h
    · rename_i h1 h2
      rw [Bool.and_eq_true] at h2
      obtain ⟨hne, _⟩ := h2
      cases h
      have hdom : domChars = '.' :: (("trycloudflare.com").data) := rfl
      have hlen : httpsChars.length = 8 := rfl
      simp only [isTunnelUrlShape, Bool.and_eq_true]
      constructor
      · rw [List.append_assoc]
        exact startsWithChars_append _ _
      · have hdrop8 :
            (httpsChars ++ (cs.drop 8).takeWhile isLabelChar ++ domChars).drop 8
              = (cs.drop 8).takeWhile isLabelChar ++ domChars := by
          rw [List.append_assoc, ← hlen, List.drop_left]
        have htake :
            (((cs.drop 8).takeWhile isLabelChar ++ domChars).takeWhile isLabelChar)
              = (cs.drop 8).takeWhile isLabelChar := by
          rw [hdom]
          exact takeWhile_append_not isLabelChar _ '.' _
            (all_takeWhile isLabelChar (cs.drop 8)) rfl
        rw [hdrop8, htake]
        refine ⟨hne, ?_⟩
        rw [List.drop_left]
        simp
    · exact absurd h (by simp)
  · exact absurd h (by simp)

/-- Every URL the leftmost-match scan finds has the tunnel-URL shape. -/
theorem findTunnelUrl_shape :
    ∀ (cs : List Char) (u : String), findTunnelUrl cs = some u →
      isTunnelUrlShape u = true := by
  intro cs
  induction cs with
  | nil => intro u h; exact absurd h (by simp [findTunnelUrl])
  | cons c cs ih =>
    intro u h
    rw [findTunnelUrl] at h
    cases hm : matchAt (c :: cs) with
    | some v =>
      rw [hm] at h
      cases h
      exact matchAt_shape hm
    | none =>
      rw [hm] at h
      exact ih u h

/-- Every URL the chunk scanner extracts has the tunnel-URL shape. -/
theorem extractTunnelUrl_shape {s u : String} (h : extractTunnelUrl s = some u) :
    isTunnelUrlShape u = true :=
  findTunnelUrl_shape s.data u h

/-- Every URL the metrics-line scan returns has the tunnel-URL shape. -/
theorem scanMetricsLines_shape (lines : List String) (u : String)
    (h : scanMetricsLines lines = some u) : isTunnelUrlShape u = true := by
  induction lines with
  | nil => exact absurd h (by simp [scanMetricsLines])
  | cons l ls ih =>
    rw [scanMetricsLines] at h
    split at h
    · cases hm : extractTunnelUrl l with
      | some v =>
        rw [hm] at h
        cases h
        exact extractTunnelUrl_shape hm
      | none =>
        rw [hm] at h
        exact ih h
    · exact ih h

/-- Every URL a probe attempt yields has the tunnel-URL shape. -/
theorem getCloudflaredUrlFromProbe_shape (b : Option String) (u : String)
    (h : getCloudflaredUrlFromProbe b = some u) : isTunnelUrlShape u = true := by
  cases b with
  | none => exact absurd h (by simp [getCloudflaredUrlFromProbe])
  | some body => exact scanMetricsLines_shape _ u h

/-- Every URL the bounded probe loop yields has the tunnel-URL shape. -/
theorem firstProbeUrl_shape :
    ∀ (n : Nat) (probes : List (Option String)) (u : String),
      firstProbeUrl n probes = some u → isTunnelUrlShape u = true := by
  intro n
  induction n with
  | zero => intro probes u h; exact absurd h (by simp [firstProbeUrl])
  | succ m ih =>
    intro probes u h
    cases probes with
    | nil => exact absurd h (by simp [firstProbeUrl])
    | cons b bs =>
      rw [firstProbeUrl] at h
      cases hb : getCloudflaredUrlFromProbe b with
      | some v =>
        rw [hb] at h
        cases h
        exact getCloudflaredUrlFromProbe_shape b _ hb
      | none =>
        rw [hb] at h
        exact ih bs u h

/-- The chunk-scan state only ever holds URLs of the tunnel-URL shape. -/
theorem foldl_onChunk_shape (chunks : List String) (st : Option String × Bool)
    (hst : ∀ u, st.1 = some u → isTunnelUrlShape u = true) :
    ∀ u, (chunks.foldl onChunk st).1 = some u → isTunnelUrlShape u = true := by
  induction chunks generalizing st with
  | nil => exact hst
  | cons c cs ih =>
    rw [List.foldl_cons]
    refine ih (onChunk st c) ?_
    intro u hu
    unfold onChunk at hu
    cases hm : extractTunnelUrl c with
    | some v =>
      rw [hm] at hu
      simp only [] at hu
      split at hu
      · exact hst u hu
      · cases hu
        exact extractTunnelUrl_shape hm
    | none =>
      rw [hm] at hu
      exact hst u hu

/-- Each assigning operation preserves the shape invariant of the cached
URL. -/
theorem stepTunnelUrl_shape (cur : Option String) (e : TunnelUrlEvent)
    (h : ∀ u, cur = some u → isTunnelUrlShape u = true) :
    ∀ u, stepTunnelUrl cur e = some u → isTunnelUrlShape u = true := by
  cases e with
  | tunnelStart chunks =>
    intro u hu
    simp only [stepTunnelUrl] at hu
    cases hm : (startTunnelScan chunks).1 with
    | some v =>
      rw [hm] at hu
      cases hu
      exact foldl_onChunk_shape chunks (none, false) (by intro w hw; cases hw) _ hm
    | none =>
      rw [hm] at hu
      exact h u hu
  | monitorTick body =>
    intro u hu
    simp only [stepTunnelUrl] at hu
    cases hm : getCloudflaredUrlFromProbe body with
    | some v =>
      rw [hm] at hu
      cases hu
      exact getCloudflaredUrlFromProbe_shape body _ hm
    | none =>
      rw [hm] at hu
      exact h u hu
  | checkCloudflared body =>
    intro u hu
    simp only [stepTunnelUrl] at hu
    cases hc : cur with
    | some v =>
      rw [hc] at hu
      exact h u (hc.trans hu)
    | none =>
      rw [hc] at hu
      cases hm : getCloudflaredUrlFromProbe body with
      | some v =>
        rw [hm] at hu
        cases hu
        exact getCloudflaredUrlFromProbe_shape body _ hm
      | none =>
        rw [hm] at hu
        exact absurd hu (by simp)
  | getTunnelUrl body =>
    intro u hu
    simp only [stepTunnelUrl] at hu
    cases hm : getCloudflaredUrlFromProbe body with
    | some v =>
      rw [hm] at hu
      cases hu
      exact getCloudflaredUrlFromProbe_shape body _ hm
    | none =>
      rw [hm] at hu
      exact h u hu
  | getSystemInfo body =>
    intro u hu
    simp only [stepTunnelUrl] at hu
    cases hm : getCloudflaredUrlFromProbe body with
    | some v =>
      rw [hm] at hu
      cases hu
      exact getCloudflaredUrlFromProbe_shape body _ hm
    | none =>
      rw [hm] at hu
      exact h u hu
  | registerProbe probes =>
    intro u hu
    simp only [stepTunnelUrl] at hu
    cases hc : cur with
    | some v =>
      rw [hc] at hu
      exact h u (hc.trans hu)
    | none =>
      rw [hc] at hu
      cases hm : firstProbeUrl 60 probes with
      | some v =>
        rw [hm] at hu
        cases hu
        exact firstProbeUrl_shape 60 probes _ hm
      | none =>
        rw [hm] at hu
        exact absurd hu (by simp)

/-- C10: starting from the initial `null`, after any sequence of the
operations that assign `detectedTunnelUrl`, a non-null cached URL always
matches `https://<label>.trycloudflare.com` with a non-empty label of
lowercase letters, digits and hyphens. -/
theorem detectedTunnelUrl_shape_invariant (events : List TunnelUrlEvent)
    (u : String) (h : events.foldl stepTunnelUrl none = some u) :
    isTunnelUrlShape u = true := by
  have main : ∀ (es : List TunnelUrlEvent) (cur : Option String),
      (∀ v, cur = some v → isTunnelUrlShape v = true) →
      ∀ v, es.foldl stepTunnelUrl cur = some v → isTunnelUrlShape v = true := by
    intro es
    induction es with
    | nil => intro cur hc; exact hc
    | cons e es ih =>
      intro cur hc
      rw [List.foldl_cons]
      exact ih (stepTunnelUrl cur e) (stepTunnelUrl_shape cur e hc)
  exact main events none (by intro v hv; cases hv) u h

/-- Witness for C10: a tunnel start that finds a URL, followed by a failed
monitor probe, leaves a cached URL of the required shape. -/
theorem detectedTunnelUrl_shape_invariant_witness :
    isTunnelUrlShape ("https://ab-12.trycloudflare.com") = true :=
  detectedTunnelUrl_shape_invariant
    [TunnelUrlEvent.tunnelStart ["boot", "ready at https://ab-12.trycloudflare.com ok"],
     TunnelUrlEvent.monitorTick none]
    ("https://ab-12.trycloudflare.com") (by decide)

end Whistant
